import Mathlib

/-!
Shallow embedding of the core of the videopipeline repository
(src/src/core/buffer.cpp, block.cpp, video_sink.cpp, video_source.cpp,
pipeline_manager.cpp and src/src/blocks/test_pattern_source.cpp), together
with theorems settling the behavioural claims about it.

Machine integers are modelled as Nat; the uint32 arithmetic of
FrameInfo::GetFrameSize wraps explicitly mod 2^32.  Wall-clock time and the
condition-variable wakeups of the sink queue are passed in as explicit
parameters, which is the standard way to embed the concurrency
nondeterminism of the code in a pure model.
-/

namespace VideoPipeline

/-- PixelFormat enumeration from include/video_pipeline/buffer.h. -/
inductive PixelFormat where
  | UNKNOWN
  | RGB24
  | BGR24
  | RGBA32
  | BGRA32
  | YUV420P
  | NV12
  | NV21
  | YUYV
  | UYVY
deriving DecidableEq, Repr

/-- BlockState enumeration from include/video_pipeline/block.h. -/
inductive BlockState where
  | UNINITIALIZED
  | INITIALIZED
  | STARTING
  | RUNNING
  | STOPPING
  | STOPPED
  | ERROR
deriving DecidableEq, Repr

/-- The wrap modulus of 32-bit unsigned arithmetic. -/
def u32 : Nat := 2 ^ 32

/-- FrameInfo from include/video_pipeline/buffer.h (width, height, stride are
uint32_t; timestamp_us and sequence_number are uint64_t).  The hardware-buffer
fields are irrelevant to the claims and omitted. -/
structure FrameInfo where
  width : Nat
  height : Nat
  stride : Nat
  pixel_format : PixelFormat
  timestamp_us : Nat
  sequence_number : Nat
deriving DecidableEq, Repr

/-- FrameInfo::GetFrameSize from src/src/core/buffer.cpp.  The products are
computed in 32-bit unsigned arithmetic (width and height are uint32_t and
unsigned int is 32 bits wide on the target platforms), so every
multiplication wraps mod 2^32 before the result widens to size_t. -/
def FrameInfo.GetFrameSize (fi : FrameInfo) : Nat :=
  match fi.pixel_format with
  | .RGB24 | .BGR24 => fi.width * fi.height % u32 * 3 % u32
  | .RGBA32 | .BGRA32 => fi.width * fi.height % u32 * 4 % u32
  | .YUV420P | .NV12 | .NV21 => fi.width * fi.height % u32 * 3 % u32 / 2
  | .YUYV | .UYVY => fi.width * fi.height % u32 * 2 % u32
  | .UNKNOWN => 0

/-- Modelled from the spec: the per-format frame-size formulas of spec §3
taken literally (RGB24/BGR24 = w·h·3, RGBA32/BGRA32 = w·h·4,
YUV420P/NV12/NV21 = w·h·3/2, YUYV/UYVY = w·h·2, UNKNOWN = 0), written as
exact Nat arithmetic for comparison with the code's wrapping arithmetic. -/
def specFrameSize (pf : PixelFormat) (w h : Nat) : Nat :=
  match pf with
  | .RGB24 | .BGR24 => w * h * 3
  | .RGBA32 | .BGRA32 => w * h * 4
  | .YUV420P | .NV12 | .NV21 => w * h * 3 / 2
  | .YUYV | .UYVY => w * h * 2
  | .UNKNOWN => 0

/-- BlockStats from include/video_pipeline/block.h; the floating-point
timing fields (avg_fps, avg_latency_ms, last_frame_time) are outside the
claims and omitted. -/
structure BlockStats where
  frames_processed : Nat
  frames_dropped : Nat
  bytes_processed : Nat
  queue_depth : Nat
deriving DecidableEq, Repr

/-- Association-list model of std::map of string to string: insert replaces
an existing binding for the key. -/
def mapInsert (m : List (String × String)) (k v : String) : List (String × String) :=
  match m with
  | [] => [(k, v)]
  | (k0, v0) :: rest => if k0 = k then (k, v) :: rest else (k0, v0) :: mapInsert rest k v

/-- Lookup in the association-list map. -/
def mapFind (m : List (String × String)) (k : String) : Option String :=
  match m with
  | [] => none
  | (k0, v0) :: rest => if k0 = k then some v0 else mapFind rest k

/-- BaseBlock from src/src/core/block.cpp: state, last_error, the parameter
map, the registered error callback (modelled by whether one is installed
plus an invocation counter) and the stats struct. -/
structure BaseBlock where
  state : BlockState
  last_error : Option String
  params : List (String × String)
  hasErrorCallback : Bool
  errorCallbackCalls : Nat
  stats : BlockStats
deriving DecidableEq, Repr

/-- BaseBlock::SetState from src/src/core/block.cpp. -/
def SetState (b : BaseBlock) (st : BlockState) : BaseBlock :=
  { b with state := st }

/-- BaseBlock::SetError from src/src/core/block.cpp: records last_error,
transitions the block to ERROR, and invokes the error callback when one is
registered. -/
def SetError (b : BaseBlock) (e : String) : BaseBlock :=
  let b1 : BaseBlock := { b with last_error := some e, state := BlockState.ERROR }
  if b1.hasErrorCallback then { b1 with errorCallbackCalls := b1.errorCallbackCalls + 1 }
  else b1

/-- BaseBlock::UpdateStats from src/src/core/block.cpp (the moving-average
latency update touches only the omitted floating-point fields). -/
def UpdateStats (b : BaseBlock) (frame_processed : Bool) (bytes : Nat) (dropped : Bool) :
    BaseBlock :=
  let s := b.stats
  let s := if frame_processed then
      { s with frames_processed := s.frames_processed + 1,
               bytes_processed := s.bytes_processed + bytes }
    else s
  let s := if dropped then { s with frames_dropped := s.frames_dropped + 1 } else s
  { b with stats := s }

/-- BaseBlock::SetParameter from src/src/core/block.cpp: unconditionally
stores the binding and returns true. -/
def SetParameter (b : BaseBlock) (k v : String) : BaseBlock × Bool :=
  ({ b with params := mapInsert b.params k v }, true)

/-- BaseBlock::GetParameter from src/src/core/block.cpp: returns the stored
value or the empty string. -/
def GetParameter (b : BaseBlock) (k : String) : String :=
  (mapFind b.params k).getD ""

/-- A queued video frame: its sequence number and its byte size (the only
attributes the claims observe). -/
structure Frame where
  fseq : Nat
  fsize : Nat
deriving DecidableEq, Repr

/-- BaseVideoSink state from src/src/core/video_sink.cpp: the base block,
the bounded FIFO (head = oldest), max_queue_depth_ (default 10),
is_blocking_ (default true), stop_worker_, and counters for the
notifications sent on the two condition variables. -/
structure SinkState where
  block : BaseBlock
  queue : List Frame
  max_queue_depth : Nat
  is_blocking : Bool
  stop_worker : Bool
  notEmpty_notifications : Nat
  notFull_notifications : Nat
deriving DecidableEq, Repr

/-- BaseVideoSink::GetQueueDepth. -/
def GetQueueDepth (s : SinkState) : Nat := s.queue.length

/-- BaseVideoSink::GetMaxQueueDepth. -/
def GetMaxQueueDepth (s : SinkState) : Nat := s.max_queue_depth

/-- The tail of BaseVideoSink::ProcessFrame: push the frame, set
stats_.queue_depth to the new size, and notify the worker on the not-empty
condition variable. -/
def enqueueLocked (s : SinkState) (f : Frame) : SinkState :=
  let q := s.queue ++ [f]
  { s with queue := q,
           block := { s.block with stats := { s.block.stats with queue_depth := q.length } },
           notEmpty_notifications := s.notEmpty_notifications + 1 }

/-- Outcome of the wait on the not-full condition variable in the blocking
full-queue branch of ProcessFrame.  The wait predicate is
"queue size < max or stop_worker"; a wakeup therefore either observes the
stop flag (with whatever queue content q the concurrent worker left) or
observes a queue q with room.  The queue content at wake time is an input
because another thread dequeues concurrently. -/
inductive WakeOutcome where
  | stopped (q : List Frame)
  | space (q : List Frame)
deriving DecidableEq, Repr

/-- Body of BaseVideoSink::ProcessFrame for a non-null frame, from
src/src/core/video_sink.cpp lines 16-56. -/
def processFrameSome (s : SinkState) (f : Frame) (w : WakeOutcome) : SinkState × Bool :=
  if s.block.state ≠ BlockState.RUNNING then (s, false)
  else if s.max_queue_depth ≤ s.queue.length then
    if s.is_blocking = false then
      let s1 : SinkState := { s with queue := s.queue.tail,
                                     block := UpdateStats s.block false 0 true }
      (enqueueLocked s1 f, true)
    else
      match w with
      | .stopped q => ({ s with queue := q, stop_worker := true }, false)
      | .space q => (enqueueLocked { s with queue := q } f, true)
  else (enqueueLocked s f, true)

/-- BaseVideoSink::ProcessFrame (the sink's submit): null frames are
rejected up front. -/
def ProcessFrame (s : SinkState) (frame : Option Frame) (w : WakeOutcome) : SinkState × Bool :=
  match frame with
  | none => (s, false)
  | some f => processFrameSome s f w

/-- BaseVideoSink::SetMaxQueueDepth from src/src/core/video_sink.cpp
lines 74-82. -/
def SetMaxQueueDepth (s : SinkState) (depth : Nat) : SinkState × Bool :=
  if depth = 0 ∨ 1000 < depth then
    ({ s with block := SetError s.block ("Invalid queue depth: " ++ toString depth) }, false)
  else
    ({ s with max_queue_depth := depth }, true)

/-- BaseVideoSink::Stop: a no-op returning true when not RUNNING; otherwise
signal the worker, notify both condition variables, join, drain the queue
and transition to STOPPED. -/
def SinkStop (s : SinkState) : SinkState × Bool :=
  if s.block.state ≠ BlockState.RUNNING then (s, true)
  else
    let s1 : SinkState := { s with block := SetState s.block BlockState.STOPPING,
                                   stop_worker := true,
                                   notEmpty_notifications := s.notEmpty_notifications + 1,
                                   notFull_notifications := s.notFull_notifications + 1,
                                   queue := [] }
    ({ s1 with block := SetState s1.block BlockState.STOPPED }, true)

/-- BaseVideoSink::Shutdown from src/src/core/video_sink.cpp lines 149-152:
it calls Stop and returns true. -/
def SinkShutdown (s : SinkState) : SinkState × Bool :=
  ((SinkStop s).1, true)

/-- Result of one call of the concrete ProcessFrameImpl hook as observed by
the worker: normal true return, normal false return, or a thrown
exception. -/
inductive HookResult where
  | ok
  | fail
  | exn
deriving DecidableEq, Repr

/-- One iteration of BaseVideoSink::WorkerThread from
src/src/core/video_sink.cpp lines 154-198, after the wait on the not-empty
condition variable has returned.  The Bool is whether the loop continues:
it exits only when the stop flag is set and the queue is empty.  Popping
the front updates stats_.queue_depth and notifies not-full; the hook
outcome then updates the stats — an exception is counted as a drop of zero
bytes and the loop continues. -/
def WorkerStep (s : SinkState) (hr : HookResult) : SinkState × Bool :=
  if s.stop_worker = true ∧ s.queue = [] then (s, false)
  else
    match s.queue with
    | [] => (s, true)
    | f :: rest =>
      let s1 : SinkState :=
        { s with queue := rest,
                 block := { s.block with stats := { s.block.stats with queue_depth := rest.length } },
                 notFull_notifications := s.notFull_notifications + 1 }
      match hr with
      | .ok => ({ s1 with block := UpdateStats s1.block true f.fsize false }, true)
      | .fail => ({ s1 with block := UpdateStats s1.block false f.fsize true }, true)
      | .exn => ({ s1 with block := UpdateStats s1.block false 0 true }, true)

/-- A fresh BaseBlock in the given state, with an error callback installed
and zeroed stats. -/
def initBlock (st : BlockState) : BaseBlock :=
  { state := st, last_error := none, params := [], hasErrorCallback := true,
    errorCallbackCalls := 0,
    stats := { frames_processed := 0, frames_dropped := 0, bytes_processed := 0,
               queue_depth := 0 } }

/-- A sink in the given state with the given queue, max depth and blocking
mode, stop flag clear and notification counters zeroed. -/
def mkSink (st : BlockState) (q : List Frame) (maxd : Nat) (blocking : Bool) : SinkState :=
  { block := initBlock st, queue := q, max_queue_depth := maxd, is_blocking := blocking,
    stop_worker := false, notEmpty_notifications := 0, notFull_notifications := 0 }

/-- BaseVideoSource state from src/src/core/video_source.cpp, extended with
the TestPatternSource generator fields (frame_counter_, stop_generator_)
from src/src/blocks/test_pattern_source.cpp.  delivered is the
chronological log of the sequence_number values handed to the installed
frame callback — the model of the synchronous delivery into the connected
sink's submit. -/
structure SourceState where
  block : BaseBlock
  has_frame_callback : Bool
  delivered : List Nat
  frame_counter : Nat
  stop_generator : Bool
deriving DecidableEq, Repr

/-- BaseVideoSource::EmitFrame from src/src/core/video_source.cpp lines
102-124.  gateOpen is the value of ShouldEmitFrame() (a clock comparison)
and now is Timer::GetCurrentTimestampUs(), both passed in because they read
the monotonic clock.  Order, exactly as in the code: null/no-callback
check; frame-rate gate (a closed gate counts the frame as dropped);
stamping timestamp_us := now and sequence_number := frames_processed + 1;
synchronous invocation of the callback with the stamped frame (recorded in
delivered); stats update as a success.  Returns the delivered frame, if
any. -/
def EmitFrame (s : SourceState) (fi : FrameInfo) (fsize : Nat) (gateOpen : Bool) (now : Nat) :
    SourceState × Option FrameInfo :=
  if s.has_frame_callback = false then (s, none)
  else if gateOpen = false then
    ({ s with block := UpdateStats s.block false 0 true }, none)
  else
    let fi2 : FrameInfo := { fi with timestamp_us := now,
                                     sequence_number := s.block.stats.frames_processed + 1 }
    let s1 : SourceState := { s with delivered := s.delivered ++ [fi2.sequence_number] }
    let s2 : SourceState := { s1 with block := UpdateStats s1.block true fsize false }
    (s2, some fi2)

/-- One emission attempt: the prepared frame, its size, the gate outcome
and the clock value. -/
structure EmitEvent where
  fi : FrameInfo
  fsize : Nat
  gateOpen : Bool
  now : Nat
deriving DecidableEq, Repr

/-- A run of successive EmitFrame calls on one source (the generator loop
of a concrete source between start and stop). -/
def RunEmits (s : SourceState) : List EmitEvent → SourceState
  | [] => s
  | e :: rest => RunEmits (EmitFrame s e.fi e.fsize e.gateOpen e.now).1 rest

/-- IBlock::GetStateString from src/src/core/block.cpp. -/
def stateString (st : BlockState) : String :=
  match st with
  | .UNINITIALIZED => "UNINITIALIZED"
  | .INITIALIZED => "INITIALIZED"
  | .STARTING => "STARTING"
  | .RUNNING => "RUNNING"
  | .STOPPING => "STOPPING"
  | .STOPPED => "STOPPED"
  | .ERROR => "ERROR"

/-- TestPatternSource::Start from src/src/blocks/test_pattern_source.cpp
lines 148-168: no-op when already RUNNING; rejected (via SetError) from any
state other than INITIALIZED or STOPPED; otherwise STARTING, clear the
generator stop flag, reset frame_counter_ to 0, spawn the generator thread
and transition to RUNNING.  The per-block stats (and so frames_processed)
are not touched. -/
def TestPatternSourceStart (s : SourceState) : SourceState × Bool :=
  if s.block.state = BlockState.RUNNING then (s, true)
  else if s.block.state ≠ BlockState.INITIALIZED ∧ s.block.state ≠ BlockState.STOPPED then
    ({ s with block := SetError s.block ("Cannot start from state: " ++ stateString s.block.state) },
     false)
  else
    let s1 : SourceState := { s with block := SetState s.block BlockState.STARTING,
                                     stop_generator := false, frame_counter := 0 }
    ({ s1 with block := SetState s1.block BlockState.RUNNING }, true)

/-- TestPatternSource::Stop: a no-op returning true when not RUNNING;
otherwise STOPPING, signal and join the generator thread, STOPPED. -/
def TestPatternSourceStop (s : SourceState) : SourceState × Bool :=
  if s.block.state ≠ BlockState.RUNNING then (s, true)
  else
    let s1 : SourceState := { s with block := SetState s.block BlockState.STOPPING,
                                     stop_generator := true }
    ({ s1 with block := SetState s1.block BlockState.STOPPED }, true)

/-- TestPatternSource::Shutdown from src/src/blocks/test_pattern_source.cpp
lines 188-191: it calls Stop and returns true. -/
def TestPatternSourceShutdown (s : SourceState) : SourceState × Bool :=
  ((TestPatternSourceStop s).1, true)

/-- A fresh source in the given state with a frame callback installed. -/
def mkSource (st : BlockState) : SourceState :=
  { block := initBlock st, has_frame_callback := true, delivered := [],
    frame_counter := 0, stop_generator := false }

/-- BlockDef from include/video_pipeline/pipeline_manager.h: a block name
and its registry type. -/
structure BlockDef where
  bname : String
  btype : String
deriving DecidableEq, Repr

/-- PipelineManager state: the name-to-block map (the created block is
identified by its type string), last_error_ and the running flag. -/
structure PMState where
  blocks : List (String × String)
  last_error : Option String
  is_running : Bool
deriving DecidableEq, Repr

/-- The creation loop of PipelineManager::CreateBlocks from
src/src/core/pipeline_manager.cpp lines 302-325: for each BlockDef ask the
registry (modelled as the predicate telling which type names have a
factory); a null result stops the loop with last_error set and false,
leaving the blocks inserted so far in place; a created block gets the error
callback attached and is inserted into the map. -/
def createBlocksLoop (reg : String → Bool) :
    List BlockDef → List (String × String) → List (String × String) × Option String × Bool
  | [], acc => (acc, none, true)
  | d :: rest, acc =>
    if reg d.btype = true then
      createBlocksLoop reg rest (mapInsert acc d.bname d.btype)
    else
      (acc, some ("Failed to create block " ++ d.bname ++ " of type " ++ d.btype), false)

/-- PipelineManager::CreateBlocks: clears the map first, then runs the
creation loop. -/
def CreateBlocks (reg : String → Bool) (defs : List BlockDef) (pm : PMState) : PMState × Bool :=
  let r := createBlocksLoop reg defs []
  ({ pm with blocks := r.1,
             last_error := match r.2.1 with
               | none => pm.last_error
               | some e => some e },
   r.2.2)

/-- PipelineManager::Initialize from src/src/core/pipeline_manager.cpp
lines 25-56: reject while running; store the config; CreateBlocks, and on
its failure return false at once; otherwise run the configure and connect
passes, abstracted as the parameter rest because they call virtual methods
of the concrete blocks. -/
def PMInitialize (reg : String → Bool) (defs : List BlockDef)
    (rest : PMState → PMState × Bool) (pm : PMState) : PMState × Bool :=
  if pm.is_running = true then
    ({ pm with last_error := some "Cannot initialize while pipeline is running" }, false)
  else
    let r := CreateBlocks reg defs pm
    if r.2 = false then (r.1, false) else rest r.1

/-- A frame-size invariant of the sink as an inline proposition is stated
directly through GetQueueDepth and GetMaxQueueDepth in the theorems; this
predicate names the wait-predicate consistency of a wakeup: a stop wakeup
observes some queue within the bound, a space wakeup observes a queue with
room (the wait predicate of ProcessFrame). -/
def wakeOk (s : SinkState) (w : WakeOutcome) : Prop :=
  match w with
  | WakeOutcome.stopped q => q.length ≤ s.max_queue_depth
  | WakeOutcome.space q => q.length < s.max_queue_depth

/-- Invariant carried through a source's emission run: every delivered
sequence number is at most frames_processed, and the delivered log is
strictly increasing. -/
def emitInv (s : SourceState) : Prop :=
  (∀ x ∈ s.delivered, x ≤ s.block.stats.frames_processed) ∧
  List.Pairwise (fun a b : Nat => a < b) s.delivered

/-- A 640x480 RGB24 frame descriptor. -/
def fi0 : FrameInfo :=
  { width := 640, height := 480, stride := 1920, pixel_format := PixelFormat.RGB24,
    timestamp_us := 0, sequence_number := 0 }

/-- A 65536x65536 RGB24 frame descriptor, whose byte size overflows 32-bit
arithmetic. -/
def fiBig : FrameInfo :=
  { width := 65536, height := 65536, stride := 0, pixel_format := PixelFormat.RGB24,
    timestamp_us := 0, sequence_number := 0 }

/-- A running sink holding one queued frame. -/
def sinkC4 : SinkState := mkSink BlockState.RUNNING [⟨1, 4⟩] 10 true

/-- A running sink holding three queued frames under the default max depth
of 10. -/
def sinkC7 : SinkState := mkSink BlockState.RUNNING [⟨1, 8⟩, ⟨2, 8⟩, ⟨3, 8⟩] 10 true

/-- A running source with a callback installed. -/
def srcW : SourceState := mkSource BlockState.RUNNING

/-- Two open-gate emission attempts. -/
def evA : EmitEvent := { fi := fi0, fsize := 16, gateOpen := true, now := 100 }

/-- A second open-gate emission attempt. -/
def evB : EmitEvent := { fi := fi0, fsize := 16, gateOpen := true, now := 200 }

/-- A test-pattern source that was initialized, started, emitted one frame
(sequence number 1) and was stopped: frames_processed is 1 in state
STOPPED. -/
def srcC6stopped : SourceState :=
  (TestPatternSourceStop
    ((EmitFrame ((TestPatternSourceStart (mkSource BlockState.INITIALIZED)).1) fi0 3 true 100).1)).1

/-- The same source started a second time. -/
def srcC6run : SourceState := (TestPatternSourceStart srcC6stopped).1

/-- A registry that can create only the type test_pattern. -/
def regC5 : String → Bool := fun t => t == "test_pattern"

/-- Two block definitions, the second of an unregistered type. -/
def defsC5 : List BlockDef := [⟨"cam", "test_pattern"⟩, ⟨"out", "missing_type"⟩]

/-- Configure and connect passes that succeed without touching the state
(never reached in the failure scenarios). -/
def restId : PMState → PMState × Bool := fun pm => (pm, true)

/-- A fresh pipeline manager. -/
def pm0 : PMState := { blocks := [], last_error := none, is_running := false }

theorem mapFind_mapInsert_self (m : List (String × String)) (k v : String) :
    mapFind (mapInsert m k v) k = some v := by
  induction m with
  | nil => simp [mapInsert, mapFind]
  | cons hd tl ih =>
    obtain ⟨k0, v0⟩ := hd
    by_cases h : k0 = k
    · simp [mapInsert, mapFind, h]
    · simp [mapInsert, mapFind, h, ih]

theorem mul_mod_u32_eq (a k : Nat) (hk : 1 ≤ k) (h : a * k < u32) :
    a % u32 * k % u32 = a * k := by
  have h1 : a * 1 ≤ a * k := Nat.mul_le_mul_left a hk
  have ha : a < u32 := lt_of_le_of_lt (by simpa using h1) h
  rw [Nat.mod_eq_of_lt ha, Nat.mod_eq_of_lt h]

/-- C10: for every key, every value and every block state (including
RUNNING), SetParameter returns true and stores the value, so that an
immediately following GetParameter returns it; the block state is left
untouched, so no call is ever rejected based on the current state. -/
theorem setParameter_always_accepts (b : BaseBlock) (k v : String) :
    (SetParameter b k v).2 = true ∧
    GetParameter (SetParameter b k v).1 k = v ∧
    (SetParameter b k v).1.state = b.state := by
  refine ⟨rfl, ?_, rfl⟩
  simp [SetParameter, GetParameter, mapFind_mapInsert_self]

/-- C9 counterexample: GetFrameSize is computed in 32-bit unsigned
arithmetic, so at width = height = 65536 the RGB24 size wraps to 0 instead
of the claimed w·h·3 = 12884901888. -/
theorem getFrameSize_overflow_cex :
    fiBig.GetFrameSize = 0 ∧
    specFrameSize PixelFormat.RGB24 65536 65536 = 12884901888 ∧
    (0 : Nat) ≠ 12884901888 := by
  refine ⟨by decide, by norm_num [specFrameSize], by norm_num⟩

/-- C9 (amended): GetFrameSize is a pure, deterministic function of
(pixel_format, width, height) alone, and because it is computed in 32-bit
unsigned arithmetic the spec formulas (w·h·3 for RGB24/BGR24, w·h·4 for
RGBA32/BGRA32, w·h·3/2 for YUV420P/NV12/NV21, w·h·2 for YUYV/UYVY, 0 for
UNKNOWN) hold exactly whenever w·h·4 < 2^32; beyond that the products wrap
mod 2^32. -/
theorem getFrameSize_amended :
    (∀ fi fj : FrameInfo, fi.pixel_format = fj.pixel_format → fi.width = fj.width →
      fi.height = fj.height → fi.GetFrameSize = fj.GetFrameSize) ∧
    (∀ fi : FrameInfo, fi.width * fi.height * 4 < u32 →
      fi.GetFrameSize = specFrameSize fi.pixel_format fi.width fi.height) := by
  constructor
  · intro fi fj h1 h2 h3
    unfold FrameInfo.GetFrameSize
    rw [h1, h2, h3]
  · rintro ⟨w, ht, st, pf, ts, sq⟩ h4
    simp only at h4
    have h3 : w * ht * 3 < u32 := lt_of_le_of_lt (Nat.mul_le_mul_left _ (by norm_num)) h4
    have h2 : w * ht * 2 < u32 := lt_of_le_of_lt (Nat.mul_le_mul_left _ (by norm_num)) h4
    cases pf <;>
      simp [FrameInfo.GetFrameSize, specFrameSize,
            mul_mod_u32_eq (w * ht) 3 (by norm_num) h3,
            mul_mod_u32_eq (w * ht) 4 (by norm_num) h4,
            mul_mod_u32_eq (w * ht) 2 (by norm_num) h2]

/-- C9 witness: at 640x480 the bound holds and the code size equals the
spec formula. -/
theorem getFrameSize_amended_witness :
    fi0.width * fi0.height * 4 < u32 ∧
    fi0.GetFrameSize = specFrameSize fi0.pixel_format fi0.width fi0.height := by
  refine ⟨by decide, ?_⟩
  exact getFrameSize_amended.2 fi0 (by decide)

/-- C8 counterexample: SetMaxQueueDepth 0 is rejected and leaves the
configured max depth unchanged, but it calls SetError, which moves the
block state from INITIALIZED to ERROR — the state is not unchanged. -/
theorem setMaxQueueDepth_rejection_cex :
    (SetMaxQueueDepth (mkSink BlockState.INITIALIZED [] 10 true) 0).2 = false ∧
    (SetMaxQueueDepth (mkSink BlockState.INITIALIZED [] 10 true) 0).1.max_queue_depth = 10 ∧
    (SetMaxQueueDepth (mkSink BlockState.INITIALIZED [] 10 true) 0).1.block.state =
      BlockState.ERROR ∧
    BlockState.ERROR ≠ BlockState.INITIALIZED := by
  decide

/-- C8 (amended): for n = 0 or n > 1000, SetMaxQueueDepth returns false and
leaves the configured max depth and the queue unchanged, but via SetError
it sets last_error and transitions the block to the ERROR state (firing the
error callback); for 1 ≤ n ≤ 1000 it succeeds, setting the max depth to n
and leaving the block untouched. -/
theorem setMaxQueueDepth_amended (s : SinkState) (n : Nat) :
    ((n = 0 ∨ 1000 < n) →
      (SetMaxQueueDepth s n).2 = false ∧
      (SetMaxQueueDepth s n).1.max_queue_depth = s.max_queue_depth ∧
      (SetMaxQueueDepth s n).1.queue = s.queue ∧
      (SetMaxQueueDepth s n).1.block.state = BlockState.ERROR ∧
      (SetMaxQueueDepth s n).1.block.last_error ≠ none) ∧
    (1 ≤ n → n ≤ 1000 →
      (SetMaxQueueDepth s n).2 = true ∧
      (SetMaxQueueDepth s n).1.max_queue_depth = n ∧
      (SetMaxQueueDepth s n).1.block = s.block) := by
  constructor
  · intro h
    unfold SetMaxQueueDepth
    rw [if_pos h]
    refine ⟨rfl, rfl, rfl, ?_, ?_⟩ <;>
      · by_cases hc : s.block.hasErrorCallback = true <;> simp [SetError, hc]
  · intro h1 h2
    have h : ¬ (n = 0 ∨ 1000 < n) := by omega
    unfold SetMaxQueueDepth
    rw [if_neg h]
    exact ⟨rfl, rfl, rfl⟩

/-- C8 witness: rejection at 1001 and success at 5 on a concrete sink. -/
theorem setMaxQueueDepth_amended_witness :
    ((1001 = 0 ∨ 1000 < 1001) ∧ (SetMaxQueueDepth sinkC7 1001).2 = false) ∧
    (1 ≤ 5 ∧ 5 ≤ 1000 ∧ (SetMaxQueueDepth sinkC7 5).2 = true) := by
  refine ⟨⟨by norm_num, ?_⟩, by norm_num, by norm_num, ?_⟩
  · exact ((setMaxQueueDepth_amended sinkC7 1001).1 (by norm_num)).1
  · exact ((setMaxQueueDepth_amended sinkC7 5).2 (by norm_num) (by norm_num)).1

/-- C3 counterexample: Shutdown only calls Stop, which is a no-op outside
RUNNING, so a sink shut down from INITIALIZED stays INITIALIZED and a
test-pattern source shut down from STOPPED stays STOPPED — neither returns
to UNINITIALIZED. -/
theorem shutdown_state_cex :
    (SinkShutdown (mkSink BlockState.INITIALIZED [] 10 true)).1.block.state =
      BlockState.INITIALIZED ∧
    (TestPatternSourceShutdown (mkSource BlockState.STOPPED)).1.block.state =
      BlockState.STOPPED ∧
    BlockState.INITIALIZED ≠ BlockState.UNINITIALIZED ∧
    BlockState.STOPPED ≠ BlockState.UNINITIALIZED := by
  decide

/-- C3 (amended): for every block in a non-Running state, Shutdown returns
true and leaves the block entirely unchanged (it merely calls Stop, which
returns immediately when the block is not RUNNING); in particular it does
not return the block to the UNINITIALIZED state. -/
theorem shutdown_amended (s : SinkState) (t : SourceState)
    (hs : s.block.state ≠ BlockState.RUNNING) (ht : t.block.state ≠ BlockState.RUNNING) :
    SinkShutdown s = (s, true) ∧ TestPatternSourceShutdown t = (t, true) := by
  constructor
  · simp [SinkShutdown, SinkStop, hs]
  · simp [TestPatternSourceShutdown, TestPatternSourceStop, ht]

/-- C3 witness: shutdown of a stopped sink and an initialized source. -/
theorem shutdown_amended_witness :
    SinkShutdown (mkSink BlockState.STOPPED [] 10 true) =
      (mkSink BlockState.STOPPED [] 10 true, true) ∧
    TestPatternSourceShutdown (mkSource BlockState.INITIALIZED) =
      (mkSource BlockState.INITIALIZED, true) := by
  exact shutdown_amended (mkSink BlockState.STOPPED [] 10 true)
    (mkSource BlockState.INITIALIZED) (by decide) (by decide)

/-- C4 counterexample: when ProcessFrameImpl throws, the worker increments
frames_dropped and continues, but the catch handler only updates the
stats — the registered error callback is never invoked (its call counter
stays 0 although a callback is installed). -/
theorem workerException_cex :
    sinkC4.block.hasErrorCallback = true ∧
    (WorkerStep sinkC4 HookResult.exn).2 = true ∧
    (WorkerStep sinkC4 HookResult.exn).1.block.stats.frames_dropped = 1 ∧
    (WorkerStep sinkC4 HookResult.exn).1.block.errorCallbackCalls = 0 := by
  decide

/-- C4 (amended): for every exception thrown by ProcessFrameImpl while the
worker handles a frame, frames_dropped is incremented and the worker
continues to the next frame rather than exiting, but the registered error
callback is NOT fired (the catch handler calls only UpdateStats, never
SetError) and the block state is untouched. -/
theorem workerException_amended (s : SinkState) (f : Frame) (rest : List Frame)
    (hq : s.queue = f :: rest) :
    (WorkerStep s HookResult.exn).2 = true ∧
    (WorkerStep s HookResult.exn).1.block.stats.frames_dropped =
      s.block.stats.frames_dropped + 1 ∧
    (WorkerStep s HookResult.exn).1.block.errorCallbackCalls = s.block.errorCallbackCalls ∧
    (WorkerStep s HookResult.exn).1.block.state = s.block.state ∧
    (WorkerStep s HookResult.exn).1.queue = rest := by
  have hne : ¬ (s.stop_worker = true ∧ s.queue = []) := by
    rintro ⟨h1, h2⟩
    rw [hq] at h2
    cases h2
  simp [WorkerStep, hne, hq, UpdateStats]

/-- C4 witness: the exception path on a concrete running sink with one
queued frame. -/
theorem workerException_amended_witness :
    sinkC4.queue = ⟨1, 4⟩ :: [] ∧
    (WorkerStep sinkC4 HookResult.exn).1.block.errorCallbackCalls =
      sinkC4.block.errorCallbackCalls := by
  refine ⟨by decide, ?_⟩
  exact (workerException_amended sinkC4 ⟨1, 4⟩ [] (by decide)).2.2.1

theorem enqueueLocked_fields (s : SinkState) (f : Frame) :
    (enqueueLocked s f).queue = s.queue ++ [f] ∧
    (enqueueLocked s f).block.stats.queue_depth = (enqueueLocked s f).queue.length ∧
    (enqueueLocked s f).notEmpty_notifications = s.notEmpty_notifications + 1 ∧
    (enqueueLocked s f).max_queue_depth = s.max_queue_depth := by
  simp [enqueueLocked]

theorem processFrameSome_true_shape (s : SinkState) (f : Frame) (w : WakeOutcome)
    (h : (processFrameSome s f w).2 = true) :
    ∃ s0 : SinkState, processFrameSome s f w = (enqueueLocked s0 f, true) ∧
      s0.notEmpty_notifications = s.notEmpty_notifications := by
  unfold processFrameSome at h ⊢
  by_cases h1 : s.block.state ≠ BlockState.RUNNING
  · rw [if_pos h1] at h
    exact absurd h (by simp)
  · rw [if_neg h1] at h ⊢
    by_cases h2 : s.max_queue_depth ≤ s.queue.length
    · rw [if_pos h2] at h ⊢
      by_cases h3 : s.is_blocking = false
      · rw [if_pos h3] at h ⊢
        exact ⟨_, rfl, rfl⟩
      · rw [if_neg h3] at h ⊢
        cases w with
        | stopped q => simp at h
        | space q => exact ⟨_, rfl, rfl⟩
    · rw [if_neg h2] at h ⊢
      exact ⟨_, rfl, rfl⟩

/-- C1: the submit contract of BaseVideoSink::ProcessFrame.  When the block
is not RUNNING it returns false with the sink unchanged; when the queue is
full and the sink is non-blocking it drops the oldest queued frame,
counts it in frames_dropped, and enqueues the new frame returning true;
when the queue is full, the sink is blocking and the wait ends because stop
was signalled, it returns false without enqueuing (the queue is exactly
what the wakeup observed); and every call that returns true has updated
stats_.queue_depth to the new queue length and has notified the not-empty
condition variable. -/
theorem processFrame_submit_contract (s : SinkState) (f : Frame) (w : WakeOutcome) :
    (s.block.state ≠ BlockState.RUNNING → ProcessFrame s (some f) w = (s, false)) ∧
    (s.block.state = BlockState.RUNNING → s.max_queue_depth ≤ s.queue.length →
      s.is_blocking = false →
      (ProcessFrame s (some f) w).2 = true ∧
      (ProcessFrame s (some f) w).1.queue = s.queue.tail ++ [f] ∧
      (ProcessFrame s (some f) w).1.block.stats.frames_dropped =
        s.block.stats.frames_dropped + 1) ∧
    (∀ q : List Frame, s.block.state = BlockState.RUNNING →
      s.max_queue_depth ≤ s.queue.length → s.is_blocking = true →
      (ProcessFrame s (some f) (WakeOutcome.stopped q)).2 = false ∧
      (ProcessFrame s (some f) (WakeOutcome.stopped q)).1.queue = q) ∧
    ((ProcessFrame s (some f) w).2 = true →
      (ProcessFrame s (some f) w).1.block.stats.queue_depth =
        (ProcessFrame s (some f) w).1.queue.length ∧
      (ProcessFrame s (some f) w).1.notEmpty_notifications = s.notEmpty_notifications + 1) := by
  refine ⟨?_, ?_, ?_, ?_⟩
  · intro h
    simp [ProcessFrame, processFrameSome, h]
  · intro h1 h2 h3
    simp [ProcessFrame, processFrameSome, h1, h2, h3, enqueueLocked, UpdateStats]
  · intro q h1 h2 h3
    simp [ProcessFrame, processFrameSome, h1, h2, h3]
  · intro hsucc
    have hsome : ProcessFrame s (some f) w = processFrameSome s f w := rfl
    rw [hsome] at hsucc ⊢
    obtain ⟨s0, heq, hnot⟩ := processFrameSome_true_shape s f w hsucc
    rw [heq]
    simp [enqueueLocked, hnot]

/-- C1 witness: a stopped sink rejects the frame unchanged; a full
non-blocking sink accepts it. -/
theorem processFrame_submit_contract_witness :
    ProcessFrame (mkSink BlockState.STOPPED [] 10 true) (some ⟨1, 1⟩) (WakeOutcome.space [])
      = (mkSink BlockState.STOPPED [] 10 true, false) ∧
    (ProcessFrame (mkSink BlockState.RUNNING [⟨0, 0⟩] 1 false) (some ⟨1, 1⟩)
      (WakeOutcome.space [])).2 = true := by
  constructor
  · exact (processFrame_submit_contract (mkSink BlockState.STOPPED [] 10 true) ⟨1, 1⟩
      (WakeOutcome.space [])).1 (by decide)
  · exact ((processFrame_submit_contract (mkSink BlockState.RUNNING [⟨0, 0⟩] 1 false) ⟨1, 1⟩
      (WakeOutcome.space [])).2.1 (by decide) (by decide) (by decide)).1

/-- C7 counterexample: the queue-depth bound is not preserved by
SetMaxQueueDepth: on a sink with 3 queued frames under max 10, the call
SetMaxQueueDepth 1 succeeds and leaves get_queue_depth = 3 above
get_max_queue_depth = 1 (the queue is not trimmed). -/
theorem queueBound_setMaxDepth_cex :
    GetQueueDepth sinkC7 ≤ GetMaxQueueDepth sinkC7 ∧
    (SetMaxQueueDepth sinkC7 1).2 = true ∧
    ¬ (GetQueueDepth (SetMaxQueueDepth sinkC7 1).1 ≤
        GetMaxQueueDepth (SetMaxQueueDepth sinkC7 1).1) := by
  decide

/-- C7 (amended): get_queue_depth ≤ get_max_queue_depth is an invariant of
submit (both blocking and non-blocking, given max_queue_depth ≥ 1 as the
setter's bounds and the default guarantee, and wakeups consistent with the
wait predicate) and of the worker's dequeue; SetMaxQueueDepth however
preserves it only when the new bound is at least the current queue depth —
lowering the max below the current depth violates the bound, as the queue
is not trimmed. -/
theorem queueBound_amended :
    (∀ (s : SinkState) (f : Option Frame) (w : WakeOutcome),
      1 ≤ s.max_queue_depth → wakeOk s w →
      GetQueueDepth s ≤ GetMaxQueueDepth s →
      GetQueueDepth (ProcessFrame s f w).1 ≤ GetMaxQueueDepth (ProcessFrame s f w).1) ∧
    (∀ (s : SinkState) (hr : HookResult),
      GetQueueDepth s ≤ GetMaxQueueDepth s →
      GetQueueDepth (WorkerStep s hr).1 ≤ GetMaxQueueDepth (WorkerStep s hr).1) ∧
    (∀ (s : SinkState) (n : Nat),
      GetQueueDepth s ≤ GetMaxQueueDepth s → GetQueueDepth s ≤ n →
      GetQueueDepth (SetMaxQueueDepth s n).1 ≤ GetMaxQueueDepth (SetMaxQueueDepth s n).1) := by
  refine ⟨?_, ?_, ?_⟩
  · intro s f w hmax hwake hinv
    cases f with
    | none => exact hinv
    | some fr =>
      show GetQueueDepth (processFrameSome s fr w).1 ≤ GetMaxQueueDepth (processFrameSome s fr w).1
      unfold processFrameSome
      by_cases h1 : s.block.state ≠ BlockState.RUNNING
      · rw [if_pos h1]
        exact hinv
      · rw [if_neg h1]
        by_cases h2 : s.max_queue_depth ≤ s.queue.length
        · rw [if_pos h2]
          by_cases h3 : s.is_blocking = false
          · rw [if_pos h3]
            have hlen : s.queue.tail.length = s.queue.length - 1 := List.length_tail s.queue
            simp only [GetQueueDepth, GetMaxQueueDepth, enqueueLocked, List.length_append,
              List.length_singleton]
            simp only [GetQueueDepth, GetMaxQueueDepth] at hinv
            omega
          · rw [if_neg h3]
            cases w with
            | stopped q =>
              simpa [GetQueueDepth, GetMaxQueueDepth] using hwake
            | space q =>
              have hq : q.length < s.max_queue_depth := hwake
              simp only [GetQueueDepth, GetMaxQueueDepth, enqueueLocked, List.length_append,
                List.length_singleton]
              omega
        · rw [if_neg h2]
          simp only [GetQueueDepth, GetMaxQueueDepth, enqueueLocked, List.length_append,
            List.length_singleton]
          simp only [GetQueueDepth, GetMaxQueueDepth] at hinv
          omega
  · intro s hr hinv
    unfold WorkerStep
    by_cases h0 : s.stop_worker = true ∧ s.queue = []
    · rw [if_pos h0]
      exact hinv
    · rw [if_neg h0]
      cases hq : s.queue with
      | nil => exact hinv
      | cons fr rest =>
        have hlen : rest.length + 1 = s.queue.length := by rw [hq]; simp
        simp only [GetQueueDepth, GetMaxQueueDepth] at hinv
        cases hr <;>
          · simp only [GetQueueDepth, GetMaxQueueDepth, UpdateStats]
            omega
  · intro s n hinv hle
    unfold SetMaxQueueDepth
    by_cases h : n = 0 ∨ 1000 < n
    · rw [if_pos h]
      exact hinv
    · rw [if_neg h]
      exact hle

/-- C7 witness: a blocking submit on the three-deep sink preserves the
bound. -/
theorem queueBound_amended_witness :
    1 ≤ sinkC7.max_queue_depth ∧
    GetQueueDepth sinkC7 ≤ GetMaxQueueDepth sinkC7 ∧
    GetQueueDepth (ProcessFrame sinkC7 (some ⟨4, 8⟩) (WakeOutcome.space [])).1 ≤
      GetMaxQueueDepth (ProcessFrame sinkC7 (some ⟨4, 8⟩) (WakeOutcome.space [])).1 := by
  refine ⟨by decide, by decide, ?_⟩
  exact queueBound_amended.1 sinkC7 (some ⟨4, 8⟩) (WakeOutcome.space []) (by decide)
    (show ([] : List Frame).length < sinkC7.max_queue_depth by decide) (by decide)

theorem emitFrame_preserves_inv (s : SourceState) (fi : FrameInfo) (sz : Nat) (g : Bool)
    (now : Nat) (h : emitInv s) : emitInv (EmitFrame s fi sz g now).1 := by
  obtain ⟨hle, hpw⟩ := h
  unfold EmitFrame
  by_cases hcb : s.has_frame_callback = false
  · rw [if_pos hcb]
    exact ⟨hle, hpw⟩
  · rw [if_neg hcb]
    by_cases hg : g = false
    · rw [if_pos hg]
      refine ⟨?_, hpw⟩
      simpa [UpdateStats] using hle
    · rw [if_neg hg]
      constructor
      · intro x hx
        simp only [UpdateStats] at hx ⊢
        simp only [List.mem_append, List.mem_singleton] at hx
        rcases hx with hx | hx
        · exact le_trans (hle x hx) (by simp)
        · simp [hx]
      · simp only [UpdateStats]
        rw [List.pairwise_append]
        refine ⟨hpw, List.pairwise_singleton _ _, ?_⟩
        intro a ha b hb
        simp only [List.mem_singleton] at hb
        subst hb
        exact Nat.lt_succ_of_le (hle a ha)

theorem runEmits_preserves_inv (s : SourceState) (evs : List EmitEvent) (h : emitInv s) :
    emitInv (RunEmits s evs) := by
  induction evs generalizing s with
  | nil => exact h
  | cons e rest ih =>
    exact ih (EmitFrame s e.fi e.fsize e.gateOpen e.now).1
      (emitFrame_preserves_inv s e.fi e.fsize e.gateOpen e.now h)

/-- C2: the contract of BaseVideoSource::EmitFrame for a source with a
delivery callback installed.  A closed gate discards the frame, counts it
as dropped, delivers nothing and leaves frames_processed unchanged.  An
open gate delivers exactly the frame stamped with timestamp_us = now and
sequence_number = frames_processed + 1 (the pre-call value — the stamp and
the synchronous callback precede the stats update), appends that sequence
number to the delivery log and only then counts the success in
frames_processed.  Consequently, over any run of emissions the sequence of
sequence_number values delivered to the connected sink is strictly
increasing. -/
theorem emitFrame_contract :
    (∀ (s : SourceState) (fi : FrameInfo) (sz now : Nat),
      s.has_frame_callback = true →
      (EmitFrame s fi sz false now).2 = none ∧
      (EmitFrame s fi sz false now).1.delivered = s.delivered ∧
      (EmitFrame s fi sz false now).1.block.stats.frames_dropped =
        s.block.stats.frames_dropped + 1 ∧
      (EmitFrame s fi sz false now).1.block.stats.frames_processed =
        s.block.stats.frames_processed) ∧
    (∀ (s : SourceState) (fi : FrameInfo) (sz now : Nat),
      s.has_frame_callback = true →
      (EmitFrame s fi sz true now).2 =
        some { fi with timestamp_us := now,
                       sequence_number := s.block.stats.frames_processed + 1 } ∧
      (EmitFrame s fi sz true now).1.delivered =
        s.delivered ++ [s.block.stats.frames_processed + 1] ∧
      (EmitFrame s fi sz true now).1.block.stats.frames_processed =
        s.block.stats.frames_processed + 1) ∧
    (∀ (s : SourceState) (evs : List EmitEvent),
      s.delivered = [] →
      List.Pairwise (fun a b : Nat => a < b) (RunEmits s evs).delivered) := by
  refine ⟨?_, ?_, ?_⟩
  · intro s fi sz now hcb
    simp [EmitFrame, hcb, UpdateStats]
  · intro s fi sz now hcb
    simp [EmitFrame, hcb, UpdateStats]
  · intro s evs hdel
    have h : emitInv s := by
      rw [emitInv, hdel]
      simp
    exact (runEmits_preserves_inv s evs h).2

/-- C2 witness: a closed-gate attempt delivers nothing, and a two-emission
run from a fresh running source has a strictly increasing delivery log. -/
theorem emitFrame_contract_witness :
    srcW.has_frame_callback = true ∧
    (EmitFrame srcW fi0 16 false 100).2 = none ∧
    List.Pairwise (fun a b : Nat => a < b) (RunEmits srcW [evA, evB]).delivered := by
  refine ⟨by decide, ?_, ?_⟩
  · exact (emitFrame_contract.1 srcW fi0 16 100 (by decide)).1
  · exact emitFrame_contract.2.2 srcW [evA, evB] (by decide)

/-- C6 counterexample: a test-pattern source that emitted one frame
(sequence 1), was stopped, and was started again is RUNNING, yet the first
frame emitted after the second start carries sequence_number 2, not 1 —
Start resets frame_counter_ but not the stats the sequence number is
derived from. -/
theorem restartSequence_cex :
    srcC6run.block.state = BlockState.RUNNING ∧
    (EmitFrame srcC6run fi0 3 true 200).2 =
      some { fi0 with timestamp_us := 200, sequence_number := 2 } ∧
    (2 : Nat) ≠ 1 := by
  decide

/-- C6 (amended): starting a stopped test-pattern source succeeds, sets the
state to RUNNING and restarts frame_counter_ at 0, but does not reset
frames_processed; the first frame emitted after the restart therefore
carries sequence_number frames_processed + 1, continuing the pre-stop
numbering rather than restarting at 1. -/
theorem restartSequence_amended (s : SourceState) (fi : FrameInfo) (sz now : Nat)
    (hstop : s.block.state = BlockState.STOPPED) (hcb : s.has_frame_callback = true) :
    (TestPatternSourceStart s).2 = true ∧
    (TestPatternSourceStart s).1.block.state = BlockState.RUNNING ∧
    (TestPatternSourceStart s).1.frame_counter = 0 ∧
    (TestPatternSourceStart s).1.block.stats.frames_processed =
      s.block.stats.frames_processed ∧
    (EmitFrame (TestPatternSourceStart s).1 fi sz true now).2 =
      some { fi with timestamp_us := now,
                     sequence_number := s.block.stats.frames_processed + 1 } := by
  simp [TestPatternSourceStart, hstop, SetState, EmitFrame, hcb]

/-- C6 witness: the concrete stopped source with frames_processed = 1. -/
theorem restartSequence_amended_witness :
    srcC6stopped.block.state = BlockState.STOPPED ∧
    srcC6stopped.has_frame_callback = true ∧
    (EmitFrame (TestPatternSourceStart srcC6stopped).1 fi0 3 true 200).2 =
      some { fi0 with timestamp_us := 200,
                      sequence_number := srcC6stopped.block.stats.frames_processed + 1 } := by
  refine ⟨by decide, by decide, ?_⟩
  exact (restartSequence_amended srcC6stopped fi0 3 200 (by decide) (by decide)).2.2.2.2

theorem createBlocksLoop_fail (reg : String → Bool) (defs : List BlockDef)
    (acc : List (String × String)) (h : ∃ d ∈ defs, reg d.btype = false) :
    (createBlocksLoop reg defs acc).2.2 = false ∧
    (createBlocksLoop reg defs acc).2.1 ≠ none ∧
    (createBlocksLoop reg defs acc).1 =
      (defs.takeWhile (fun b => reg b.btype)).foldl
        (fun a b => mapInsert a b.bname b.btype) acc := by
  induction defs generalizing acc with
  | nil => simp at h
  | cons d rest ih =>
    by_cases hd : reg d.btype = true
    · have hrest : ∃ b ∈ rest, reg b.btype = false := by
        rcases h with ⟨b, hb, hfb⟩
        rcases List.mem_cons.mp hb with rfl | hb2
        · rw [hd] at hfb
          cases hfb
        · exact ⟨b, hb2, hfb⟩
      have hrec := ih (mapInsert acc d.bname d.btype) hrest
      simpa [createBlocksLoop, hd, List.takeWhile_cons] using hrec
    · have hd2 : reg d.btype = false := by
        revert hd
        cases reg d.btype <;> simp
      simp [createBlocksLoop, hd2, List.takeWhile_cons]

/-- C5 (amended): if, during Initialize on a non-running manager, the
registry fails to create some block, then Initialize returns false and sets
last_error, but the name-to-block map is NOT left empty: it was cleared on
entry to CreateBlocks and then retains exactly the blocks created before
the failing definition (the longest prefix of the config whose types the
registry can create) — initialization is not atomic with respect to the
block map. -/
theorem initialize_create_failure_amended (reg : String → Bool) (defs : List BlockDef)
    (rest : PMState → PMState × Bool) (pm : PMState)
    (hrun : pm.is_running = false)
    (hfail : ∃ d ∈ defs, reg d.btype = false) :
    (PMInitialize reg defs rest pm).2 = false ∧
    (PMInitialize reg defs rest pm).1.last_error ≠ none ∧
    (PMInitialize reg defs rest pm).1.blocks =
      (defs.takeWhile (fun b => reg b.btype)).foldl
        (fun a b => mapInsert a b.bname b.btype) [] := by
  obtain ⟨hfalse, herr, hacc⟩ := createBlocksLoop_fail reg defs [] hfail
  rcases hE : (createBlocksLoop reg defs []).2.1 with _ | e
  · exact absurd hE herr
  · simp [PMInitialize, hrun, CreateBlocks, hE, hfalse, hacc]

/-- C5 counterexample: with a config of two blocks whose second type is not
registered, Initialize fails with last_error set, but the block map still
contains the first block — it is not cleared. -/
theorem initialize_create_failure_cex :
    (PMInitialize regC5 defsC5 restId pm0).2 = false ∧
    (PMInitialize regC5 defsC5 restId pm0).1.last_error ≠ none ∧
    (PMInitialize regC5 defsC5 restId pm0).1.blocks = [("cam", "test_pattern")] ∧
    [("cam", "test_pattern")] ≠ ([] : List (String × String)) := by
  decide

/-- C5 witness: the amended statement at the concrete failing config. -/
theorem initialize_create_failure_amended_witness :
    pm0.is_running = false ∧
    (∃ d ∈ defsC5, regC5 d.btype = false) ∧
    (PMInitialize regC5 defsC5 restId pm0).2 = false := by
  refine ⟨rfl, ⟨⟨"out", "missing_type"⟩, by decide, by decide⟩, ?_⟩
  exact (initialize_create_failure_amended regC5 defsC5 restId pm0 rfl
    ⟨⟨"out", "missing_type"⟩, by decide, by decide⟩).1

end VideoPipeline
